import Mathlib

set_option maxRecDepth 20000

/-!
Shallow embedding of the `projgen` C/C++ project scaffolder (src/main.go).

The program is a one-shot CLI: it validates flags, probes the installed
CMake version, creates a directory tree, renders a CMakeLists.txt from a
text template, optionally bootstraps vcpkg and writes its manifest and
presets files, writes a starter main file, and finally prompts the user
whether to initialize a Git repository.

The embedding models the filesystem as an explicit state (`FS`), every
side effect as an `Event` in a trace, and the outcomes of the shelled-out
external commands (cmake probe, git clone, vcpkg bootstrap, vcpkg new,
git init, git add) as a record of oracles (`Env`), since those outcomes
are decided outside the program.  `os.Exit(1)` call sites are modelled by
an `exitCode` field that aborts the remaining steps, exactly where the
source calls it.
-/

namespace Projgen

/-- The Go constant `cppMainTemplate`: the starter main file written by
`createProjectStructure`.  Note this is the only starter-source template
in the program; it is written for both languages. -/
def cppMainTemplate : String :=
  "\n#include \"pch.hpp\"\n\nint main() \x7b\n    std::cout << \"Hello, World!\" << std::endl;\n    return 0;\n\x7d\n"

/-- The Go constant `pchTemplate` (precompiled header starter). -/
def pchTemplate : String :=
  "\n#ifndef PCH_HPP\n#define PCH_HPP\n\n#include <iostream>\n\n#endif\n"

/-- The Go constant `gitignoreTemplate`. -/
def gitignoreTemplate : String :=
  "\n# Compiled Object files\n*.o\n*.obj\n\n# Precompiled Headers\n*.gch\n*.pch\n\n# Compiled Dynamic libraries\n*.so\n*.dylib\n*.dll\n\n# Compiled Static libraries\n*.lib\n*.a\n\n# Executable files\n*.exe\n*.out\n*.app\n\n# CMake Build\n/build/\nCMakeCache.txt\nCMakeFiles/\ncmake_install.cmake\nMakefile\n\n# IDE and editor files\n.vscode/\n*.swp\n*.swo\n*.idea/\n*.vscode/\n"

/-- The Go constant `gitattributesTemplate`. -/
def gitattributesTemplate : String :=
  "\n# Ensure consistent line endings\n* text=auto\n\n# Treat C and C++ files as text\n*.c text\n*.cpp text\n*.h text\n*.hpp text\n"

/-- The Go struct `ProjectData`.  The Go field `Type` is a reserved word
in Lean, hence `Type'`. -/
structure ProjectData where
  ProjectName : String
  Type' : String
  Lang : String
  Standard : String
  CMakeVersion : String
  CMakeLang : String
  FileExt : String
  PackageMgr : String
deriving DecidableEq, Repr

/-- The Go constant `cmakeTemplate` as rendered by `tmpl.Execute` in
`createCMakeLists`: literal text of the template is kept verbatim
(including the newlines around each action, which Go's text/template
leaves in place absent trim markers), each `\x7b\x7b.Field\x7d\x7d`
action substitutes the field, and the three conditional blocks are keyed
on `.Lang` and `.Type` exactly as in the template. -/
def renderCMake (d : ProjectData) : String :=
  "\ncmake_minimum_required(VERSION " ++ d.CMakeVersion ++
  ")\n\n# Set the project name and language\nproject(" ++ d.ProjectName ++
  " LANGUAGES " ++ d.CMakeLang ++
  ")\n\n# Set the project language standard\n" ++
  (if d.Lang == "cpp" then "\nset(CMAKE_CXX_STANDARD " ++ d.Standard ++ ")\n"
   else if d.Lang == "c" then "\nset(CMAKE_C_STANDARD " ++ d.Standard ++ ")\n"
   else "") ++
  "\n\n# Enable precompiled headers\n" ++
  (if d.Lang == "cpp" then "\nset(CMAKE_PCH_ENABLED ON)\n" else "") ++
  "\n\n# Add the executable or library\n" ++
  (if d.Type' == "executable" then
     "\nadd_executable(" ++ d.ProjectName ++ " src/main." ++ d.FileExt ++ ")\n"
   else if d.Type' == "library" then
     "\nadd_library(" ++ d.ProjectName ++ " src/main." ++ d.FileExt ++ ")\n"
   else "") ++
  "\n\n# Add precompiled header\n" ++
  (if d.Lang == "cpp" then
     "\ntarget_precompile_headers(" ++ d.ProjectName ++ " PRIVATE include/pch.hpp)\n"
   else "") ++
  "\n"

/-- The `vcpkg.json` manifest produced by `json.MarshalIndent` on the map
with the single key `dependencies` bound to an empty list. -/
def vcpkgManifestJSON : String :=
  "\x7b\n  \"dependencies\": []\n\x7d"

/-- The `CMakePresets.json` content produced by `createCMakePresets`
(`json.MarshalIndent` serializes Go map keys in sorted order). -/
def cmakePresetsJSON (name : String) : String :=
  "\x7b\n  \"configurePresets\": [\n    \x7b\n      \"binaryDir\": \"$\x7bsourceDir\x7d/build/$\x7bpresetName\x7d\",\n      \"cacheVariables\": \x7b\n        \"CMAKE_BUILD_TYPE\": \"Debug\",\n        \"CMAKE_TOOLCHAIN_FILE\": \"vcpkg/scripts/buildsystems/vcpkg.cmake\"\n      \x7d,\n      \"generator\": \"Visual Studio 17 2022\",\n      \"name\": \"" ++ name ++ "-Debug\"\n    \x7d\n  ],\n  \"version\": 3\n\x7d"

/-- One observable side effect of a run. -/
inductive Event where
  | mkdir (path : String)
  | write (path : String) (content : String)
  | exec (prog : String) (args : List String)
  | printMsg (msg : String)
deriving DecidableEq, Repr

/-- Filesystem state: the directories that exist and the regular files
with their contents. -/
structure FS where
  dirs : List String
  files : List (String × String)
deriving DecidableEq, Repr

def FS.empty : FS := ⟨[], []⟩

def FS.fileNames (fs : FS) : List String := fs.files.map Prod.fst

/-- Content of a file, when present. -/
def FS.read (fs : FS) (p : String) : Option String := fs.files.lookup p

/-- Membership of a path in a list of paths. -/
def memStr (p : String) : List String → Bool
  | [] => false
  | q :: rest => (p == q) || memStr p rest

/-- Model of Go `os.MkdirAll`: an existing directory is success, a path
already occupied by a regular file is an error, otherwise the directory
is created. -/
def mkdirAll (fs : FS) (p : String) : Except String FS :=
  if memStr p fs.dirs then .ok fs
  else if memStr p fs.fileNames then .error p
  else .ok { fs with dirs := p :: fs.dirs }

/-- Model of Go `os.Create` + `WriteString` (and `os.WriteFile`): the
file is created or overwritten with the given content. -/
def writeFileFS (fs : FS) (p c : String) : FS :=
  { fs with files := (p, c) :: fs.files.filter (fun e => e.1 != p) }

/-- Model of the `os.Stat` / `os.IsNotExist` probe on a path. -/
def statExists (fs : FS) (p : String) : Bool :=
  memStr p fs.dirs || memStr p fs.fileNames

/-- The Go helper `createFile`, threaded through the state and trace. -/
def createFile (fs : FS) (evs : List Event) (p c : String) : FS × List Event :=
  (writeFileFS fs p c, evs ++ [Event.write p c])

/-- `filepath.Join` on two components (forward-slash separator). -/
def pathJoin (a b : String) : String := a ++ "/" ++ b

/-- Outcomes of the shelled-out external commands and the interactive
stdin line, decided outside the program. -/
structure Env where
  cmakeVersion : Option String
  gitCloneOk : Bool
  bootstrapOk : Bool
  vcpkgNewOk : Bool
  gitInitOk : Bool
  gitAddOk : Bool
  stdin : String
deriving DecidableEq, Repr

/-- Final state of a run: filesystem, event trace, and `some c` when the
program called `os.Exit c`. -/
structure RunOut where
  fs : FS
  events : List Event
  exitCode : Option Nat
deriving DecidableEq, Repr

/-- The process exit status: the `os.Exit` argument if it was called,
otherwise 0 (normal return from `main`). -/
def RunOut.processExit (r : RunOut) : Nat := r.exitCode.getD 0

/-- ASCII case mapping of Go `strings.ToLower` (the run's inputs here
are ASCII). -/
def toLowerChar (c : Char) : Char :=
  if 'A' ≤ c ∧ c ≤ 'Z' then Char.ofNat (c.toNat + 32) else c

def toLower (s : String) : String := ⟨s.data.map toLowerChar⟩

/-- White-space predicate of Go `strings.TrimSpace` (ASCII range). -/
def isSpace (c : Char) : Bool :=
  c == ' ' || c == '\t' || c == '\n' || c == '\r' || c == '\x0b' || c == '\x0c'

def trimSpace (s : String) : String :=
  ⟨((s.data.dropWhile isSpace).reverse.dropWhile isSpace).reverse⟩

/-- The directory-creation loop at the top of `createProjectStructure`:
`os.MkdirAll(filepath.Join(name, dir))` for each dir, exiting with code 1
on the first failure. -/
def mkdirs (projectName : String) :
    List String → FS → List Event → (FS × List Event) ⊕ RunOut
  | [], fs, evs => .inl (fs, evs)
  | d :: rest, fs, evs =>
    let p := pathJoin projectName d
    match mkdirAll fs p with
    | .ok fs' => mkdirs projectName rest fs' (evs ++ [Event.mkdir p])
    | .error _ =>
      .inr ⟨fs, evs ++ [Event.printMsg ("Error creating directory " ++ d)], some 1⟩

/-- The vcpkg block of `createProjectStructure`: when the package manager
is vcpkg, clone/bootstrap/initialize vcpkg if its directory does not yet
exist (each step exits with code 1 on failure — the source reuses the
"Error cloning vcpkg" message for all three), then write `vcpkg.json` and
`CMakePresets.json`.  A successful `git clone` creates the vcpkg
directory. -/
def vcpkgSetup (data : ProjectData) (env : Env) (fs : FS) (evs : List Event) :
    (FS × List Event) ⊕ RunOut :=
  if data.PackageMgr == "vcpkg" then
    let vcpkgPath := pathJoin data.ProjectName "vcpkg"
    let step : (FS × List Event) ⊕ RunOut :=
      if statExists fs vcpkgPath then .inl (fs, evs)
      else
        let evs := evs ++ [Event.printMsg "Cloning vcpkg...",
          Event.exec "git" ["clone", "https://github.com/Microsoft/vcpkg.git", vcpkgPath]]
        if env.gitCloneOk = false then
          .inr ⟨fs, evs ++ [Event.printMsg "Error cloning vcpkg"], some 1⟩
        else
          let fs := { fs with dirs := vcpkgPath :: fs.dirs }
          let evs := evs ++ [Event.printMsg "Bootstrapping vcpkg...",
            Event.exec (vcpkgPath ++ "\\bootstrap-vcpkg.bat") []]
          if env.bootstrapOk = false then
            .inr ⟨fs, evs ++ [Event.printMsg "Error cloning vcpkg"], some 1⟩
          else
            let evs := evs ++ [Event.printMsg "Creting vcpkg manifes...",
              Event.exec (vcpkgPath ++ "\\vcpkg") ["new", "--application"]]
            if env.vcpkgNewOk = false then
              .inr ⟨fs, evs ++ [Event.printMsg "Error cloning vcpkg"], some 1⟩
            else .inl (fs, evs)
    match step with
    | .inr out => .inr out
    | .inl (fs, evs) =>
      let (fs, evs) :=
        createFile fs evs (pathJoin data.ProjectName "vcpkg.json") vcpkgManifestJSON
      let (fs, evs) :=
        createFile fs evs (pathJoin data.ProjectName "CMakePresets.json")
          (cmakePresetsJSON data.ProjectName)
      .inl (fs, evs)
  else .inl (fs, evs)

/-- The Go function `createProjectStructure`: directory tree, rendered
CMakeLists.txt, optional vcpkg block, starter main file(s), success
message. -/
def createProjectStructure (data : ProjectData) (env : Env)
    (fs : FS) (evs : List Event) : RunOut :=
  match mkdirs data.ProjectName ["src", "include", "build"] fs evs with
  | .inr out => out
  | .inl (fs, evs) =>
    let (fs, evs) :=
      createFile fs evs (pathJoin data.ProjectName "CMakeLists.txt") (renderCMake data)
    match vcpkgSetup data env fs evs with
    | .inr out => out
    | .inl (fs, evs) =>
      let (fs, evs) :=
        if data.Lang == "cpp" then
          let (fs, evs) :=
            createFile fs evs (pathJoin (pathJoin data.ProjectName "src") "main.cpp")
              cppMainTemplate
          createFile fs evs (pathJoin (pathJoin data.ProjectName "include") "pch.hpp")
            pchTemplate
        else if data.Lang == "c" then
          createFile fs evs (pathJoin (pathJoin data.ProjectName "src") "main.c")
            cppMainTemplate
        else (fs, evs)
      ⟨fs, evs ++ [Event.printMsg ("Project " ++ data.ProjectName ++ " created successfully.")],
        none⟩

/-- The Go function `initializeVersionControl`: prompt, read one stdin
line, lowercase then trim it; on "y"/"yes" run `git init` (a failure is
printed and the function merely returns), write `.gitignore` and
`.gitattributes`, and run `git add` (a failure is printed and the
function merely returns); on anything else print the skip message. -/
def initializeVersionControl (projectPath : String) (env : Env)
    (fs : FS) (evs : List Event) : FS × List Event :=
  let evs := evs ++ [Event.printMsg "Do you want to initialize Git version control? (y/n): "]
  let input := trimSpace (toLower env.stdin)
  if input == "y" || input == "yes" then
    let evs := evs ++ [Event.exec "git" ["init"]]
    if env.gitInitOk = false then
      (fs, evs ++ [Event.printMsg "Error initializing Git repository"])
    else
      let (fs, evs) := createFile fs evs (pathJoin projectPath ".gitignore") gitignoreTemplate
      let (fs, evs) :=
        createFile fs evs (pathJoin projectPath ".gitattributes") gitattributesTemplate
      let evs := evs ++ [Event.exec "git" ["add", ".gitignore", ".gitattributes"]]
      if env.gitAddOk = false then
        (fs, evs ++ [Event.printMsg "Error adding .gitignore/.gitattributes to Git"])
      else
        (fs, evs ++ [Event.printMsg
          "Git repository initialized successfully with .gitignore and .gitattributes."])
  else
    (fs, evs ++ [Event.printMsg "Skipped Git initialization."])

/-- The derivation of `cmakeLang` and `fileExt` from `lang` in `main`
(`var cmakeLang, fileExt string` keeps Go zero values when neither branch
fires; that case is unreachable after validation). -/
def deriveCMakeLang (lang : String) : String × String :=
  if lang == "cpp" then ("CXX", "cpp")
  else if lang == "c" then ("C", "c")
  else ("", "")

/-- The parsed command-line flags of `main`. -/
structure Flags where
  projectName : String
  projectType : String
  lang : String
  standard : String
  pkgmgr : String
deriving DecidableEq, Repr

/-- The Go function `main`: validation (name, lang, pkgmgr, in that
order, each failure printing an error and exiting 1 before any
filesystem access), the CMake version probe (exit 1 on failure), the
descriptor derivation, `createProjectStructure`, and
`initializeVersionControl`. -/
def runMain (f : Flags) (env : Env) (fs : FS) : RunOut :=
  if f.projectName == "" then
    ⟨fs, [Event.printMsg
      "Error: Project name is required. Use -name to specify the project name."], some 1⟩
  else if f.lang != "cpp" && f.lang != "c" then
    ⟨fs, [Event.printMsg "Error: Unsupported language. Supported options: cpp, c"], some 1⟩
  else if f.pkgmgr != "vcpkg" then
    ⟨fs, [Event.printMsg
      "Error: Unsupported package manager. Only vcpkg is currently supported."], some 1⟩
  else
    let evs := [Event.exec "cmake" ["--version"]]
    match env.cmakeVersion with
    | none => ⟨fs, evs ++ [Event.printMsg "Error retrieving CMake version"], some 1⟩
    | some cmakeVersion =>
      let dl := deriveCMakeLang f.lang
      let data : ProjectData :=
        { ProjectName := f.projectName, Type' := f.projectType, Lang := f.lang,
          Standard := f.standard, CMakeVersion := cmakeVersion,
          CMakeLang := dl.1, FileExt := dl.2, PackageMgr := f.pkgmgr }
      let out := createProjectStructure data env fs evs
      match out.exitCode with
      | some _ => out
      | none =>
        let r := initializeVersionControl data.ProjectName env out.fs out.events
        ⟨r.1, r.2, none⟩

/-- Occurrence of `pat` as a contiguous sublist of `l`. -/
def subList (pat : List Char) : List Char → Bool
  | [] => pat.isEmpty
  | c :: rest => pat.isPrefixOf (c :: rest) || subList pat rest

/-- Substring test used to state properties of rendered file contents. -/
def containsStr (s pat : String) : Bool := subList pat.data s.data

/-- The filesystem-mutating events of a trace. -/
def Event.isFsWrite : Event → Bool
  | .mkdir _ => true
  | .write _ _ => true
  | _ => false

def fsEvents (evs : List Event) : List Event := evs.filter Event.isFsWrite

/-- The run of the spec's worked example: name demo, type executable,
lang cpp, std 17 (pkgmgr left at its default). -/
def demoFlags : Flags :=
  { projectName := "demo", projectType := "executable", lang := "cpp",
    standard := "17", pkgmgr := "vcpkg" }

/-- Same run with lang c. -/
def demoCFlags : Flags := { demoFlags with lang := "c" }

/-- An environment in which every external command succeeds and the user
declines the Git prompt. -/
def goodEnv : Env :=
  { cmakeVersion := some "3.30.2", gitCloneOk := true, bootstrapOk := true,
    vcpkgNewOk := true, gitInitOk := true, gitAddOk := true, stdin := "n\n" }

/-- The ProjectData that `runMain demoFlags goodEnv` constructs. -/
def demoData : ProjectData :=
  { ProjectName := "demo", Type' := "executable", Lang := "cpp", Standard := "17",
    CMakeVersion := "3.30.2", CMakeLang := "CXX", FileExt := "cpp", PackageMgr := "vcpkg" }

/-- The ProjectData that `runMain demoCFlags goodEnv` constructs. -/
def demoCData : ProjectData := { demoData with Lang := "c", CMakeLang := "C", FileExt := "c" }

/-- Environment in which the user accepts the Git prompt but `git init`
exits non-zero. -/
def gitInitFailEnv : Env := { goodEnv with gitInitOk := false, stdin := "y\n" }

/-- Flags selecting no package manager. -/
def noneFlags : Flags := { demoFlags with pkgmgr := "none" }

/-- C1: the starter source file is NOT language-specific: the run with
language "c" writes the C++ starter template (which uses std::cout and
includes pch.hpp) to src/main.c, byte-identical to the content the cpp
run writes to src/main.cpp — the two starter contents do not differ by
language, contradicting the claim; the generated C file is not valid C. -/
theorem c1_starter_not_language_specific :
    FS.read (runMain demoCFlags goodEnv FS.empty).fs "demo/src/main.c" = some cppMainTemplate ∧
    FS.read (runMain demoFlags goodEnv FS.empty).fs "demo/src/main.cpp" = some cppMainTemplate ∧
    containsStr cppMainTemplate "std::cout" = true ∧
    containsStr cppMainTemplate "#include \"pch.hpp\"" = true := by
  refine ⟨by decide, by decide, by decide, by decide⟩

/-- C2 counterexample: in a run where every step succeeds except `git
init` (the version-control init command exits non-zero), the process
exits 0, not 1: the error is printed but `initializeVersionControl`
merely returns, so the claim fails. -/
theorem c2_counterexample_git_init_nonfatal :
    (runMain demoFlags gitInitFailEnv FS.empty).processExit = 0 ∧
    Event.exec "git" ["init"] ∈ (runMain demoFlags gitInitFailEnv FS.empty).events ∧
    Event.printMsg "Error initializing Git repository" ∈
      (runMain demoFlags gitInitFailEnv FS.empty).events := by
  refine ⟨by decide, by decide, by decide⟩

/-- C2 amended: for the validated demo descriptor run on a fresh tree,
the process exits 1 exactly when the cmake version probe or one of the
vcpkg bootstrap commands (git clone, bootstrap script, vcpkg new) fails;
failures of both `git init` and `git add` are reported but non-fatal
(the process exits 0). -/
theorem c2_fatal_and_nonfatal_tools (e : Env) :
    (runMain demoFlags e FS.empty).processExit = 1 ↔
      e.cmakeVersion = none ∨ e.gitCloneOk = false ∨ e.bootstrapOk = false ∨
        e.vcpkgNewOk = false := by
  obtain ⟨cv, gc, bo, vn, gi, ga, sd⟩ := e
  cases cv <;> cases gc <;> cases bo <;> cases vn <;>
    simp [runMain, demoFlags, createProjectStructure, mkdirs, mkdirAll, pathJoin,
      vcpkgSetup, statExists, memStr, createFile, writeFileFS, FS.fileNames, FS.empty,
      RunOut.processExit, deriveCMakeLang]

/-- C3 counterexample: selecting no package manager (`-pkgmgr none`)
does not pass validation: the run fails with the unsupported-package-
manager error, exit code 1, without touching the filesystem. -/
theorem c3_counterexample_none_rejected :
    (runMain noneFlags goodEnv FS.empty).processExit = 1 ∧
    (runMain noneFlags goodEnv FS.empty).fs = FS.empty ∧
    fsEvents (runMain noneFlags goodEnv FS.empty).events = [] := by
  refine ⟨by decide, by decide, by decide⟩

/-- C3 amended: the package-manager input accepts exactly the set
\x7bvcpkg\x7d: every other value, including "none", fails with the
unsupported-package-manager ConfigError (exit 1, no filesystem write),
while "vcpkg" passes validation and the run completes. -/
theorem c3_pkgmgr_exactly_vcpkg (p : String) (h : p ≠ "vcpkg") :
    (runMain { demoFlags with pkgmgr := p } goodEnv FS.empty).processExit = 1 ∧
    (runMain { demoFlags with pkgmgr := p } goodEnv FS.empty).fs = FS.empty ∧
    fsEvents (runMain { demoFlags with pkgmgr := p } goodEnv FS.empty).events = [] ∧
    (runMain demoFlags goodEnv FS.empty).processExit = 0 := by
  refine ⟨?_, ?_, ?_, by decide⟩ <;>
    simp [runMain, demoFlags, h, RunOut.processExit, fsEvents, Event.isFsWrite]

/-- C3 amended, witness at p = "none". -/
theorem c3_pkgmgr_exactly_vcpkg_witness :
    "none" ≠ "vcpkg" ∧
    ((runMain { demoFlags with pkgmgr := "none" } goodEnv FS.empty).processExit = 1 ∧
     (runMain { demoFlags with pkgmgr := "none" } goodEnv FS.empty).fs = FS.empty ∧
     fsEvents (runMain { demoFlags with pkgmgr := "none" } goodEnv FS.empty).events = [] ∧
     (runMain demoFlags goodEnv FS.empty).processExit = 0) :=
  ⟨by decide, c3_pkgmgr_exactly_vcpkg "none" (by decide)⟩

/-- C4: the demo cpp std-17 run writes a CMakeLists.txt that contains
`set(CMAKE_CXX_STANDARD 17)` and `add_executable(demo src/main.cpp)`;
the otherwise identical lang-c run writes one with no CMAKE_CXX_STANDARD
directive and a `set(CMAKE_C_STANDARD 17)` directive instead. -/
theorem c4_manifest_directives :
    FS.read (runMain demoFlags goodEnv FS.empty).fs "demo/CMakeLists.txt"
      = some (renderCMake demoData) ∧
    containsStr (renderCMake demoData) "set(CMAKE_CXX_STANDARD 17)" = true ∧
    containsStr (renderCMake demoData) "add_executable(demo src/main.cpp)" = true ∧
    FS.read (runMain demoCFlags goodEnv FS.empty).fs "demo/CMakeLists.txt"
      = some (renderCMake demoCData) ∧
    containsStr (renderCMake demoCData) "CMAKE_CXX_STANDARD" = false ∧
    containsStr (renderCMake demoCData) "set(CMAKE_C_STANDARD 17)" = true := by
  refine ⟨by decide, by decide, by decide, by decide, by decide, by decide⟩

/-- C5: descriptor derivation is a deterministic, exhaustive function of
the language alone (type and standard are not consulted): "cpp" yields
("CXX", "cpp") and "c" yields ("C", "c"). -/
theorem c5_descriptor_derivation (lang : String) (h : lang = "cpp" ∨ lang = "c") :
    deriveCMakeLang lang = if lang = "cpp" then ("CXX", "cpp") else ("C", "c") := by
  rcases h with rfl | rfl <;> decide

/-- C5 witness at lang = "cpp". -/
theorem c5_descriptor_derivation_witness :
    ("cpp" = "cpp" ∨ "cpp" = "c") ∧
    deriveCMakeLang "cpp" = if "cpp" = "cpp" then ("CXX", "cpp") else ("C", "c") :=
  ⟨by decide, c5_descriptor_derivation "cpp" (by decide)⟩

/-- C6: an empty name, an unsupported language, or an unsupported
package-manager value makes the run exit 1 with the filesystem untouched
— no directory or file is created (the only events are error prints). -/
theorem c6_config_errors_before_writes (f : Flags) (e : Env) (fs : FS)
    (h : f.projectName = "" ∨ (f.lang ≠ "cpp" ∧ f.lang ≠ "c") ∨ f.pkgmgr ≠ "vcpkg") :
    (runMain f e fs).processExit = 1 ∧ (runMain f e fs).fs = fs ∧
    fsEvents (runMain f e fs).events = [] := by
  unfold runMain
  by_cases h1 : (f.projectName == "") = true
  · simp [h1, RunOut.processExit, fsEvents, Event.isFsWrite]
  · rw [Bool.not_eq_true] at h1
    by_cases h2 : (f.lang != "cpp" && f.lang != "c") = true
    · simp [h1, h2, RunOut.processExit, fsEvents, Event.isFsWrite]
    · rw [Bool.not_eq_true] at h2
      by_cases h3 : (f.pkgmgr != "vcpkg") = true
      · simp [h1, h2, h3, RunOut.processExit, fsEvents, Event.isFsWrite]
      · exfalso
        rw [Bool.not_eq_true] at h3
        rcases h with hn | ⟨hl1, hl2⟩ | hp
        · rw [hn] at h1; simp at h1
        · rw [Bool.and_eq_false_iff, bne_eq_false_iff_eq, bne_eq_false_iff_eq] at h2
          rcases h2 with h2 | h2
          · exact hl1 h2
          · exact hl2 h2
        · rw [bne_eq_false_iff_eq] at h3
          exact hp h3

/-- C6 witness: the empty-name run on an example filesystem. -/
theorem c6_config_errors_before_writes_witness :
    (({ demoFlags with projectName := "" } : Flags).projectName = "" ∨
      (({ demoFlags with projectName := "" } : Flags).lang ≠ "cpp" ∧
       ({ demoFlags with projectName := "" } : Flags).lang ≠ "c") ∨
      ({ demoFlags with projectName := "" } : Flags).pkgmgr ≠ "vcpkg") ∧
    ((runMain { demoFlags with projectName := "" } goodEnv FS.empty).processExit = 1 ∧
     (runMain { demoFlags with projectName := "" } goodEnv FS.empty).fs = FS.empty ∧
     fsEvents (runMain { demoFlags with projectName := "" } goodEnv FS.empty).events = []) :=
  ⟨by decide,
    c6_config_errors_before_writes { demoFlags with projectName := "" } goodEnv FS.empty
      (by decide)⟩

/-- C7: directory creation is idempotent: `mkdirAll` on an existing
directory is success returning the filesystem unchanged, and running the
whole demo generation a second time into the tree populated by the first
run completes with exit code 0. -/
theorem c7_directory_creation_idempotent (fs : FS) (p : String)
    (h : memStr p fs.dirs = true) :
    mkdirAll fs p = Except.ok fs ∧
    (runMain demoFlags goodEnv (runMain demoFlags goodEnv FS.empty).fs).processExit = 0 := by
  exact ⟨by simp [mkdirAll, h], by decide⟩

/-- C7 witness on a one-directory filesystem. -/
theorem c7_directory_creation_idempotent_witness :
    memStr "demo/src" (FS.mk ["demo/src"] []).dirs = true ∧
    (mkdirAll (FS.mk ["demo/src"] []) "demo/src" = Except.ok (FS.mk ["demo/src"] []) ∧
     (runMain demoFlags goodEnv (runMain demoFlags goodEnv FS.empty).fs).processExit = 0) :=
  ⟨by decide, c7_directory_creation_idempotent (FS.mk ["demo/src"] []) "demo/src" (by decide)⟩

/-- C8: when the stdin answer normalizes to "n", version-control
initialization changes nothing: the filesystem is returned exactly as it
was (no .gitignore, no .gitattributes, no repository) and the only added
events are the prompt and the skip message — no exec, no write. -/
theorem c8_decline_git_no_changes (p : String) (env : Env) (fs : FS) (evs : List Event)
    (h : trimSpace (toLower env.stdin) = "n") :
    (initializeVersionControl p env fs evs).1 = fs ∧
    (initializeVersionControl p env fs evs).2 =
      evs ++ [Event.printMsg "Do you want to initialize Git version control? (y/n): ",
        Event.printMsg "Skipped Git initialization."] := by
  simp [initializeVersionControl, h]

/-- C8 witness with stdin "n" followed by newline. -/
theorem c8_decline_git_no_changes_witness :
    trimSpace (toLower ({ goodEnv with stdin := "n\n" } : Env).stdin) = "n" ∧
    ((initializeVersionControl "demo" { goodEnv with stdin := "n\n" } FS.empty []).1 = FS.empty ∧
     (initializeVersionControl "demo" { goodEnv with stdin := "n\n" } FS.empty []).2 =
       [] ++ [Event.printMsg "Do you want to initialize Git version control? (y/n): ",
         Event.printMsg "Skipped Git initialization."]) :=
  ⟨by decide, c8_decline_git_no_changes "demo" { goodEnv with stdin := "n\n" } FS.empty []
    (by decide)⟩

/-- C9: the type flag is not validated: for any type value that is
neither "executable" nor "library" (and any std string) the demo run
completes with exit 0, and the rendered manifest contains neither an
add_executable nor an add_library directive. -/
theorem c9_type_not_validated (t s : String) (h1 : t ≠ "executable") (h2 : t ≠ "library") :
    (runMain { demoFlags with projectType := t, standard := s } goodEnv FS.empty).processExit
      = 0 ∧
    containsStr (renderCMake { demoData with Type' := t }) "add_executable" = false ∧
    containsStr (renderCMake { demoData with Type' := t }) "add_library" = false := by
  have hb1 : (t == "executable") = false := beq_eq_false_iff_ne.mpr h1
  have hb2 : (t == "library") = false := beq_eq_false_iff_ne.mpr h2
  have hr : renderCMake { demoData with Type' := t }
      = renderCMake { demoData with Type' := "custom" } := by
    simp [renderCMake, hb1, hb2]
  refine ⟨by rfl, ?_, ?_⟩ <;> rw [hr] <;> decide

/-- C9 witness at type "custom2", std "23". -/
theorem c9_type_not_validated_witness :
    "custom2" ≠ "executable" ∧ "custom2" ≠ "library" ∧
    ((runMain { demoFlags with projectType := "custom2", standard := "23" } goodEnv
        FS.empty).processExit = 0 ∧
     containsStr (renderCMake { demoData with Type' := "custom2" }) "add_executable" = false ∧
     containsStr (renderCMake { demoData with Type' := "custom2" }) "add_library" = false) :=
  ⟨by decide, by decide, c9_type_not_validated "custom2" "23" (by decide) (by decide)⟩

/-- C10: every stdin line whose trimmed lowercase form is neither "y"
nor "yes" (not only "n") skips version-control initialization entirely:
the filesystem is unchanged and the only added events are the prompt and
the skip message — no subprocess, no file write. -/
theorem c10_non_yes_input_skips_git (p : String) (env : Env) (fs : FS) (evs : List Event)
    (h1 : trimSpace (toLower env.stdin) ≠ "y") (h2 : trimSpace (toLower env.stdin) ≠ "yes") :
    (initializeVersionControl p env fs evs).1 = fs ∧
    (initializeVersionControl p env fs evs).2 =
      evs ++ [Event.printMsg "Do you want to initialize Git version control? (y/n): ",
        Event.printMsg "Skipped Git initialization."] := by
  have hb1 : (trimSpace (toLower env.stdin) == "y") = false := beq_eq_false_iff_ne.mpr h1
  have hb2 : (trimSpace (toLower env.stdin) == "yes") = false := beq_eq_false_iff_ne.mpr h2
  simp [initializeVersionControl, hb1, hb2]

/-- C10 witness with stdin " NO " (normalizes to "no"). -/
theorem c10_non_yes_input_skips_git_witness :
    trimSpace (toLower ({ goodEnv with stdin := " NO \n" } : Env).stdin) ≠ "y" ∧
    trimSpace (toLower ({ goodEnv with stdin := " NO \n" } : Env).stdin) ≠ "yes" ∧
    ((initializeVersionControl "demo" { goodEnv with stdin := " NO \n" } FS.empty []).1
        = FS.empty ∧
     (initializeVersionControl "demo" { goodEnv with stdin := " NO \n" } FS.empty []).2 =
       [] ++ [Event.printMsg "Do you want to initialize Git version control? (y/n): ",
         Event.printMsg "Skipped Git initialization."]) :=
  ⟨by decide, by decide,
    c10_non_yes_input_skips_git "demo" { goodEnv with stdin := " NO \n" } FS.empty []
      (by decide) (by decide)⟩

end Projgen
